import Mathlib

/-!
# Verification of the Circle payment-service client

Shallow embedding of `sssemil/circle_payment_service` (Rust) in Lean 4.

The repository is a thin HTTP client (`src/src/api.rs`) around the Circle
wallet API: it fetches an RSA public key at construction, encrypts a
hex-encoded entity secret with RSA-OAEP before every wallet-mutating call,
POSTs JSON envelopes with bearer authentication, and normalises HTTP
outcomes into a typed result.

External collaborators (the `hex`, `base64`, `rsa`, `reqwest`, `serde_json`
crates) are embedded as follows:

* `hex::decode` and `base64::encode` are deterministic, so they are embedded
  concretely (`hex_decode`, `base64_encode`);
* the RSA-OAEP primitive `RsaPublicKey::encrypt` is randomized external
  cryptography; it is passed to the client model as an oracle function with
  the rng state baked in, and the OAEP contract the spec assumes (success on
  in-range input, ciphertext differs from plaintext, distinct ciphertexts
  for independent entropy) appears as hypotheses;
* the HTTP transport and the serde decoding of response payloads whose
  struct sources are not in the snapshot are oracles in a `Oracles` record;
* Rust `str::replace` is embedded concretely (`rust_replace`).

Bytes are modelled as `Nat` with an explicit `< 256` bound where it matters.
-/

/-! ## UTF-8 encoding of strings

Rust's `hex::decode` receives `&str` data as UTF-8 bytes (`str::as_ref`),
so the byte view of the input string is modelled explicitly. -/

/-- UTF-8 byte sequence of a single scalar value. -/
def utf8EncodeChar (n : Nat) : List Nat :=
  if n < 0x80 then [n]
  else if n < 0x800 then [0xC0 + n / 64, 0x80 + n % 64]
  else if n < 0x10000 then [0xE0 + n / 4096, 0x80 + (n / 64) % 64, 0x80 + n % 64]
  else [0xF0 + n / 262144, 0x80 + (n / 4096) % 64, 0x80 + (n / 64) % 64, 0x80 + n % 64]

/-- The UTF-8 bytes of a string, as Rust sees `str` data. -/
def utf8Encode (s : String) : List Nat :=
  (s.data.map (fun c => utf8EncodeChar c.toNat)).flatten

/-! ## `hex::decode` (hex crate)

`hex::decode` first rejects odd byte length (`OddLength`), then scans byte
pairs left to right, reporting the first non-hex byte with its index. -/

/-- Error type of `hex::decode` (`hex::FromHexError`); the invalid byte is
kept as its numeric value. -/
inductive FromHexError where
  | InvalidHexCharacter (c : Nat) (index : Nat)
  | OddLength
deriving DecidableEq

/-- Value of one hex digit byte, as the hex crate's `val`. -/
def hexByteVal (b : Nat) : Option Nat :=
  if 48 ≤ b ∧ b ≤ 57 then some (b - 48)
  else if 97 ≤ b ∧ b ≤ 102 then some (b - 97 + 10)
  else if 65 ≤ b ∧ b ≤ 70 then some (b - 65 + 10)
  else none

/-- Pairwise scan of `hex::decode`; `i` counts pairs already consumed. -/
def hexDecodePairs : Nat → List Nat → Except FromHexError (List Nat)
  | _, [] => .ok []
  | i, b1 :: b2 :: rest =>
    match hexByteVal b1 with
    | none => .error (.InvalidHexCharacter b1 (2 * i))
    | some h =>
      match hexByteVal b2 with
      | none => .error (.InvalidHexCharacter b2 (2 * i + 1))
      | some l => (hexDecodePairs (i + 1) rest).map (fun t => (h * 16 + l) :: t)
  | _, [_] => .ok []

/-- `hex::decode` on a string input. -/
def hex_decode (s : String) : Except FromHexError (List Nat) :=
  if (utf8Encode s).length % 2 = 1 then .error .OddLength
  else hexDecodePairs 0 (utf8Encode s)

/-- A string is valid hex when its UTF-8 byte view has even length and every
byte is a hex digit. -/
def isValidHexString (s : String) : Bool :=
  (utf8Encode s).length % 2 == 0 && (utf8Encode s).all (fun b => (hexByteVal b).isSome)

theorem hexDecodePairs_ok_iff : ∀ (i : Nat) (bs : List Nat), bs.length % 2 = 0 →
    ((∃ v, hexDecodePairs i bs = .ok v) ↔ bs.all (fun b => (hexByteVal b).isSome) = true)
  | _, [], _ => by simp [hexDecodePairs]
  | i, b1 :: b2 :: rest, h => by
    have hrest : rest.length % 2 = 0 := by
      simp only [List.length_cons] at h; omega
    have ih := hexDecodePairs_ok_iff (i + 1) rest hrest
    cases hv1 : hexByteVal b1 with
    | none => simp [hexDecodePairs, hv1]
    | some h1 =>
      cases hv2 : hexByteVal b2 with
      | none => simp [hexDecodePairs, hv1, hv2]
      | some h2 =>
        simp only [hexDecodePairs, hv1, hv2, List.all_cons, Option.isSome_some,
          Bool.true_and]
        rw [← ih]
        constructor
        · rintro ⟨v, hv⟩
          cases hp : hexDecodePairs (i + 1) rest with
          | error e => rw [hp] at hv; simp [Except.map] at hv
          | ok t => exact ⟨t, rfl⟩
        · rintro ⟨v, hv⟩
          exact ⟨(h1 * 16 + h2) :: v, by rw [hv]; rfl⟩
  | _, [b], h => by simp at h

/-- `hex_decode` succeeds exactly on valid hex strings. -/
theorem hex_decode_ok_iff (s : String) :
    (∃ v, hex_decode s = .ok v) ↔ isValidHexString s = true := by
  unfold hex_decode isValidHexString
  rcases h : (utf8Encode s).length % 2 with _ | _ | k
  · simpa [h] using hexDecodePairs_ok_iff 0 (utf8Encode s) h
  · simp [h]
  · omega

/-- An invalid hex string makes `hex_decode` fail. -/
theorem hex_decode_error_of_invalid (s : String) (h : isValidHexString s = false) :
    ∃ e, hex_decode s = .error e := by
  cases he : hex_decode s with
  | error e => exact ⟨e, rfl⟩
  | ok v =>
    have := (hex_decode_ok_iff s).1 ⟨v, he⟩
    rw [this] at h
    cases h

/-- A decoded hex digit value is below 16. -/
theorem hexByteVal_lt (b h : Nat) (hv : hexByteVal b = some h) : h < 16 := by
  unfold hexByteVal at hv
  split at hv
  · cases hv
    omega
  · split at hv
    · cases hv
      omega
    · split at hv
      · cases hv
        omega
      · cases hv

/-- Every byte produced by the pairwise hex scan is below 256. -/
theorem hexDecodePairs_lt : ∀ (i : Nat) (bs : List Nat) (v : List Nat),
    hexDecodePairs i bs = .ok v → ∀ b ∈ v, b < 256
  | _, [], v, h => by
    simp only [hexDecodePairs] at h
    cases h; simp
  | i, b1 :: b2 :: rest, v, h => by
    cases hv1 : hexByteVal b1 with
    | none => simp [hexDecodePairs, hv1] at h
    | some h1 =>
      cases hv2 : hexByteVal b2 with
      | none => simp [hexDecodePairs, hv1, hv2] at h
      | some h2 =>
        simp only [hexDecodePairs, hv1, hv2] at h
        cases hp : hexDecodePairs (i + 1) rest with
        | error e => rw [hp] at h; simp [Except.map] at h
        | ok t =>
          rw [hp] at h
          simp only [Except.map] at h
          cases h
          intro b hb
          rcases List.mem_cons.1 hb with hb | hb
          · have hb1 := hexByteVal_lt b1 h1 hv1
            have hb2 := hexByteVal_lt b2 h2 hv2
            omega
          · exact hexDecodePairs_lt (i + 1) rest t hp b hb
  | _, [b1], v, h => by
    simp only [hexDecodePairs] at h
    cases h; simp

/-- Bytes produced by `hex_decode` are below 256. -/
theorem hex_decode_lt (s : String) (v : List Nat) (h : hex_decode s = .ok v) :
    ∀ b ∈ v, b < 256 := by
  unfold hex_decode at h
  split at h
  · cases h
  · exact hexDecodePairs_lt 0 (utf8Encode s) v h

/-! ## `base64::encode` (base64 crate, STANDARD alphabet with padding) -/

/-- Character of a 6-bit value in the standard base64 alphabet. -/
def b64Char (n : Nat) : Char :=
  if n < 26 then Char.ofNat (65 + n)
  else if n < 52 then Char.ofNat (97 + (n - 26))
  else if n < 62 then Char.ofNat (48 + (n - 52))
  else if n = 62 then '+'
  else '/'

/-- Inverse of `b64Char` on the alphabet. -/
def b64Dec (c : Char) : Option Nat :=
  if 'A' ≤ c ∧ c ≤ 'Z' then some (c.toNat - 65)
  else if 'a' ≤ c ∧ c ≤ 'z' then some (c.toNat - 97 + 26)
  else if '0' ≤ c ∧ c ≤ '9' then some (c.toNat - 48 + 52)
  else if c = '+' then some 62
  else if c = '/' then some 63
  else none

theorem b64Dec_b64Char : ∀ n < 64, b64Dec (b64Char n) = some n := by decide

theorem b64Char_ne_pad : ∀ n < 64, b64Char n ≠ '=' := by decide

/-- Byte groups of three become four characters; one- and two-byte tails are
padded with `=`. -/
def base64EncodeList : List Nat → List Char
  | b1 :: b2 :: b3 :: rest =>
    b64Char (b1 / 4) :: b64Char ((b1 % 4) * 16 + b2 / 16) ::
      b64Char ((b2 % 16) * 4 + b3 / 64) :: b64Char (b3 % 64) :: base64EncodeList rest
  | [b1, b2] => [b64Char (b1 / 4), b64Char ((b1 % 4) * 16 + b2 / 16), b64Char ((b2 % 16) * 4), '=']
  | [b1] => [b64Char (b1 / 4), b64Char ((b1 % 4) * 16), '=', '=']
  | [] => []

/-- `base64::encode` with the standard alphabet and padding. -/
def base64_encode (bs : List Nat) : String := String.mk (base64EncodeList bs)

/-- Standard base64 decoding, the inverse used to state that the client's
output decodes back to the ciphertext bytes. -/
def base64DecodeList : List Char → Option (List Nat)
  | [] => some []
  | c1 :: c2 :: c3 :: c4 :: rest =>
    match b64Dec c1, b64Dec c2 with
    | some a, some b =>
      if c3 = '=' then
        if c4 = '=' ∧ rest = [] then some [a * 4 + b / 16] else none
      else
        match b64Dec c3 with
        | some c =>
          if c4 = '=' then
            if rest = [] then some [a * 4 + b / 16, (b % 16) * 16 + c / 4] else none
          else
            match b64Dec c4 with
            | some d => (base64DecodeList rest).map
                (fun t => (a * 4 + b / 16) :: ((b % 16) * 16 + c / 4) :: ((c % 4) * 64 + d) :: t)
            | none => none
        | none => none
    | _, _ => none
  | _ => none

def base64_decode (s : String) : Option (List Nat) := base64DecodeList s.data

/-- Decoding inverts encoding on byte inputs. -/
theorem base64DecodeList_encodeList : ∀ (bs : List Nat), (∀ b ∈ bs, b < 256) →
    base64DecodeList (base64EncodeList bs) = some bs
  | [], _ => by simp [base64EncodeList, base64DecodeList]
  | [b1], h => by
    have hb1 : b1 < 256 := h b1 (by simp)
    have e1 := b64Dec_b64Char (b1 / 4) (by omega)
    have e2 := b64Dec_b64Char ((b1 % 4) * 16) (by omega)
    simp [base64EncodeList, base64DecodeList, e1, e2]
    omega
  | [b1, b2], h => by
    have hb1 : b1 < 256 := h b1 (by simp)
    have hb2 : b2 < 256 := h b2 (by simp)
    have e1 := b64Dec_b64Char (b1 / 4) (by omega)
    have e2 := b64Dec_b64Char ((b1 % 4) * 16 + b2 / 16) (by omega)
    have e3 := b64Dec_b64Char ((b2 % 16) * 4) (by omega)
    have ne3 := b64Char_ne_pad ((b2 % 16) * 4) (by omega)
    simp [base64EncodeList, base64DecodeList, e1, e2, e3, ne3]
    constructor <;> omega
  | b1 :: b2 :: b3 :: rest, h => by
    have hb1 : b1 < 256 := h b1 (by simp)
    have hb2 : b2 < 256 := h b2 (by simp)
    have hb3 : b3 < 256 := h b3 (by simp)
    have ih := base64DecodeList_encodeList rest
      (fun b hb => h b (by simp [hb]))
    have e1 := b64Dec_b64Char (b1 / 4) (by omega)
    have e2 := b64Dec_b64Char ((b1 % 4) * 16 + b2 / 16) (by omega)
    have e3 := b64Dec_b64Char ((b2 % 16) * 4 + b3 / 64) (by omega)
    have e4 := b64Dec_b64Char (b3 % 64) (by omega)
    have ne3 := b64Char_ne_pad ((b2 % 16) * 4 + b3 / 64) (by omega)
    have ne4 := b64Char_ne_pad (b3 % 64) (by omega)
    simp [base64EncodeList, base64DecodeList, e1, e2, e3, e4, ne3, ne4, ih]
    refine ⟨by omega, by omega, by omega⟩

/-- Round trip through the string wrappers. -/
theorem base64_decode_encode (bs : List Nat) (h : ∀ b ∈ bs, b < 256) :
    base64_decode (base64_encode bs) = some bs := by
  unfold base64_decode base64_encode
  exact base64DecodeList_encodeList bs h

/-- `base64_encode` is injective on byte inputs. -/
theorem base64_encode_inj (xs ys : List Nat) (hx : ∀ b ∈ xs, b < 256)
    (hy : ∀ b ∈ ys, b < 256) (h : base64_encode xs = base64_encode ys) : xs = ys := by
  have hd : base64_decode (base64_encode xs) = base64_decode (base64_encode ys) := by
    rw [h]
  rw [base64_decode_encode xs hx, base64_decode_encode ys hy] at hd
  exact Option.some.inj hd

/-- A non-empty byte sequence encodes to a non-empty string. -/
theorem base64_encode_ne_empty (bs : List Nat) (h : bs ≠ []) : base64_encode bs ≠ "" := by
  intro he
  have hlist : base64EncodeList bs = [] := by
    have : (base64_encode bs).data = ("" : String).data := by rw [he]
    simpa [base64_encode] using this
  match bs, h with
  | [b1], _ => simp [base64EncodeList] at hlist
  | [b1, b2], _ => simp [base64EncodeList] at hlist
  | b1 :: b2 :: b3 :: rest, _ => simp [base64EncodeList] at hlist

/-! ## Rust `str::replace` with empty replacement

`CircleClient::new` runs `public_key.replace("RSA ", "")`: every
non-overlapping occurrence of the pattern, scanning left to right, is
removed.  Fuel-structured so the definition evaluates in the kernel. -/

/-- One left-to-right removal pass; `fuel` bounds the recursion and is
supplied as the input length (each step consumes at least one character). -/
def replaceAllFuel (p : Char) (ps : List Char) : Nat → List Char → List Char
  | 0, l => l
  | _ + 1, [] => []
  | fuel + 1, c :: rest =>
    if (p :: ps).isPrefixOf (c :: rest) then replaceAllFuel p ps fuel (rest.drop ps.length)
    else c :: replaceAllFuel p ps fuel rest

/-- Rust `s.replace(pat, "")` for a non-empty pattern (empty patterns do not
occur in the client). -/
def rust_replace (s : String) (pat : String) : String :=
  match pat.data with
  | [] => s
  | p :: ps => String.mk (replaceAllFuel p ps s.data.length s.data)

/-- The key-material cleanup `CircleClient::new` applies:
`public_key.replace("RSA ", "")` (src/src/api.rs line 49). -/
def strip_rsa_label (s : String) : String := rust_replace s "RSA "

/-- Definition following the claim's words (C9): strip one leading
occurrence of the token `"RSA "`, leaving the remainder unchanged. -/
def spec_strip_leading_token (s : String) : String :=
  if "RSA ".data.isPrefixOf s.data then String.mk (s.data.drop 4) else s

/-! ## JSON values (serde_json model)

`serde_json` is embedded at the JSON-value level: a value type, a printer
with string escaping, and a parser sufficient for the wire formats of this
client (strings, objects, arrays, integers, booleans, null; floating-point
numbers do not occur in any envelope). -/

/-- The characters `\x7b` and `\x7d`. -/
def lbrace : Char := Char.ofNat 123

def rbrace : Char := Char.ofNat 125

inductive Json where
  | null
  | bool (b : Bool)
  | num (n : Int)
  | str (s : String)
  | arr (xs : List Json)
  | obj (fields : List (String × Json))

/-- Hex digit character for a value below 16 (lowercase). -/
def hexDigitChar (n : Nat) : Char :=
  if n < 10 then Char.ofNat (48 + n) else Char.ofNat (97 + (n - 10))

/-- serde_json string escaping. -/
def jsonEscapeChar (c : Char) : List Char :=
  if c = '"' then ['\\', '"']
  else if c = '\\' then ['\\', '\\']
  else if c = '\n' then ['\\', 'n']
  else if c = '\t' then ['\\', 't']
  else if c = '\r' then ['\\', 'r']
  else if c.toNat = 8 then ['\\', 'b']
  else if c.toNat = 12 then ['\\', 'f']
  else if c.toNat < 32 then
    ['\\', 'u', '0', '0', hexDigitChar (c.toNat / 16), hexDigitChar (c.toNat % 16)]
  else [c]

def jsonQuote (s : String) : String :=
  "\"" ++ String.mk ((s.data.map jsonEscapeChar).flatten) ++ "\""

mutual

/-- serde_json serialization of a value to text. -/
def Json.print : Json → String
  | .null => "null"
  | .bool true => "true"
  | .bool false => "false"
  | .num n => toString n
  | .str s => jsonQuote s
  | .arr xs => "[" ++ Json.printArr xs ++ "]"
  | .obj fs => "\x7b" ++ Json.printObj fs ++ "\x7d"

def Json.printArr : List Json → String
  | [] => ""
  | [x] => Json.print x
  | x :: y :: xs => Json.print x ++ "," ++ Json.printArr (y :: xs)

def Json.printObj : List (String × Json) → String
  | [] => ""
  | [(k, v)] => jsonQuote k ++ ":" ++ Json.print v
  | (k, v) :: f :: fs => jsonQuote k ++ ":" ++ Json.print v ++ "," ++ Json.printObj (f :: fs)

end

/-- Value of a hex digit character. -/
def hexCharVal (c : Char) : Option Nat :=
  if '0' ≤ c ∧ c ≤ '9' then some (c.toNat - 48)
  else if 'a' ≤ c ∧ c ≤ 'f' then some (c.toNat - 97 + 10)
  else if 'A' ≤ c ∧ c ≤ 'F' then some (c.toNat - 65 + 10)
  else none

/-- Skip JSON whitespace. -/
def skipWs : List Char → List Char
  | ' ' :: rest => skipWs rest
  | '\n' :: rest => skipWs rest
  | '\t' :: rest => skipWs rest
  | '\r' :: rest => skipWs rest
  | cs => cs

/-- Single-character JSON escapes. -/
def jsonUnescape (c : Char) : Option Char :=
  if c = '"' then some '"'
  else if c = '\\' then some '\\'
  else if c = '/' then some '/'
  else if c = 'n' then some '\n'
  else if c = 't' then some '\t'
  else if c = 'r' then some '\r'
  else if c = 'b' then some (Char.ofNat 8)
  else if c = 'f' then some (Char.ofNat 12)
  else none

/-- Parse a JSON string body after the opening quote; returns the content
and the input after the closing quote. -/
def parseJsonStr : List Char → Option (List Char × List Char)
  | [] => none
  | '"' :: rest => some ([], rest)
  | '\\' :: 'u' :: a :: b :: c :: d :: rest =>
    match hexCharVal a, hexCharVal b, hexCharVal c, hexCharVal d with
    | some x, some y, some z, some w =>
      (parseJsonStr rest).map
        (fun p => (Char.ofNat (((x * 16 + y) * 16 + z) * 16 + w) :: p.1, p.2))
    | _, _, _, _ => none
  | '\\' :: e :: rest =>
    match jsonUnescape e with
    | some c => (parseJsonStr rest).map (fun p => (c :: p.1, p.2))
    | none => none
  | c :: rest => (parseJsonStr rest).map (fun p => (c :: p.1, p.2))

/-- Leading decimal digits and the remainder. -/
def spanDigits : List Char → List Char × List Char
  | [] => ([], [])
  | c :: rest =>
    if c.isDigit then
      let p := spanDigits rest
      (c :: p.1, p.2)
    else ([], c :: rest)

def digitsToNat (ds : List Char) : Nat :=
  ds.foldl (fun acc c => acc * 10 + (c.toNat - 48)) 0

/-- Fuel-structured JSON value parser.  Array and object continuations are
parsed by re-entering the parser on a re-opened collection, so the whole
parser is a single structurally recursive function that the kernel can
evaluate.  The fuel is supplied as the input length plus one. -/
def parseJsonF : Nat → List Char → Option (Json × List Char)
  | 0, _ => none
  | fuel + 1, cs =>
    match skipWs cs with
    | 'n' :: 'u' :: 'l' :: 'l' :: rest => some (.null, rest)
    | 't' :: 'r' :: 'u' :: 'e' :: rest => some (.bool true, rest)
    | 'f' :: 'a' :: 'l' :: 's' :: 'e' :: rest => some (.bool false, rest)
    | '"' :: rest => (parseJsonStr rest).map (fun p => (.str (String.mk p.1), p.2))
    | '[' :: rest =>
      match skipWs rest with
      | ']' :: r2 => some (.arr [], r2)
      | cs2 =>
        match parseJsonF fuel cs2 with
        | some (v, r2) =>
          match skipWs r2 with
          | ']' :: r3 => some (.arr [v], r3)
          | ',' :: r3 =>
            match parseJsonF fuel ('[' :: r3) with
            | some (.arr tail, r4) => some (.arr (v :: tail), r4)
            | _ => none
          | _ => none
        | none => none
    | '-' :: rest =>
      match spanDigits rest with
      | ([], _) => none
      | (ds, r2) => some (.num (-(Int.ofNat (digitsToNat ds))), r2)
    | c :: rest =>
      if c = lbrace then
        match skipWs rest with
        | [] => none
        | c2 :: r2 =>
          if c2 = rbrace then some (.obj [], r2)
          else if c2 = '"' then
            match parseJsonStr r2 with
            | some (kcs, r3) =>
              match skipWs r3 with
              | ':' :: r4 =>
                match parseJsonF fuel r4 with
                | some (v, r5) =>
                  match skipWs r5 with
                  | [] => none
                  | c6 :: r6 =>
                    if c6 = rbrace then some (.obj [(String.mk kcs, v)], r6)
                    else if c6 = ',' then
                      match parseJsonF fuel (lbrace :: r6) with
                      | some (.obj tail, r7) => some (.obj ((String.mk kcs, v) :: tail), r7)
                      | _ => none
                    else none
                | none => none
              | _ => none
            | none => none
          else none
      else if c.isDigit then
        match spanDigits (c :: rest) with
        | (ds, r2) => some (.num (Int.ofNat (digitsToNat ds)), r2)
      else none
    | [] => none

/-- serde_json text parsing of one complete value. -/
def Json.parse (s : String) : Option Json :=
  match parseJsonF (s.data.length + 1) s.data with
  | some (j, rest) => if skipWs rest = [] then some j else none
  | none => none

/-! ## serde derive semantics for the wire structs

Derived `Deserialize` on a struct: unknown fields are ignored, a missing
field is an error, a duplicate field is an error; `rename_all = "camelCase"`
maps each Rust field name to its camel-case wire name. -/

/-- Field access in a deserialized JSON object, with serde's missing- and
duplicate-field errors. -/
def jsonField (fields : List (String × Json)) (key : String) : Except String Json :=
  match fields.filter (fun kv => kv.1 == key) with
  | [kv] => .ok kv.2
  | [] => .error ("missing field " ++ key)
  | _ => .error ("duplicate field " ++ key)

def jsonAsStr : Json → Except String String
  | .str s => .ok s
  | _ => .error "expected string"

def jsonStrField (fields : List (String × Json)) (key : String) : Except String String := do
  jsonAsStr (← jsonField fields key)

/-! ## `uuid::Uuid` parsing

`Uuid` deserializes from a string in hyphenated, simple, braced or
urn form; the value is modelled as the 128-bit number. -/

/-- Hex digits folded to a value; `none` on a non-hex digit. -/
def parseHexGroup (cs : List Char) : Option Nat :=
  cs.foldl
    (fun acc c =>
      match acc, hexCharVal c with
      | some a, some v => some (a * 16 + v)
      | _, _ => none)
    (some 0)

def splitOnDash : List Char → List (List Char)
  | [] => [[]]
  | c :: rest =>
    let r := splitOnDash rest
    if c = '-' then [] :: r
    else
      match r with
      | g :: gs => (c :: g) :: gs
      | [] => [[c]]

def stripUuidBraces (cs : List Char) : List Char :=
  match cs with
  | c :: rest =>
    if c = lbrace ∧ rest.getLast? = some rbrace then rest.dropLast else c :: rest
  | [] => []

/-- `uuid::Uuid::parse_str`. -/
def uuid_parse (s : String) : Option Nat :=
  let cs0 := s.data
  let cs1 := if ("urn:uuid:".data).isPrefixOf cs0 then cs0.drop 9 else cs0
  let cs := stripUuidBraces cs1
  match splitOnDash cs with
  | [g] => if g.length = 32 then parseHexGroup g else none
  | [g1, g2, g3, g4, g5] =>
    if g1.length = 8 ∧ g2.length = 4 ∧ g3.length = 4 ∧ g4.length = 4 ∧ g5.length = 12 then
      match parseHexGroup g1, parseHexGroup g2, parseHexGroup g3, parseHexGroup g4,
          parseHexGroup g5 with
      | some a, some b, some c, some d, some e =>
        some (a * 2 ^ 96 + b * 2 ^ 80 + c * 2 ^ 64 + d * 2 ^ 48 + e)
      | _, _, _, _, _ => none
    else none
  | _ => none

/-! ## `chrono::DateTime<Utc>` RFC 3339 parsing -/

/-- A UTC instant: seconds since the Unix epoch plus subsecond nanoseconds. -/
structure DateTime where
  epoch_sec : Int
  nanos : Nat
deriving DecidableEq

def isLeapYear (y : Int) : Bool :=
  y % 4 == 0 && (y % 100 != 0 || y % 400 == 0)

def daysInMonth (y : Int) (m : Nat) : Nat :=
  if m = 2 then (if isLeapYear y then 29 else 28)
  else if m = 4 ∨ m = 6 ∨ m = 9 ∨ m = 11 then 30
  else 31

/-- Days from the civil epoch 1970-01-01 (Howard Hinnant's algorithm, with
truncating integer division as in the original). -/
def daysFromCivil (y : Int) (m d : Nat) : Int :=
  let y2 : Int := if m ≤ 2 then y - 1 else y
  let era : Int := (if 0 ≤ y2 then y2 else y2 - 399) / 400
  let yoe : Int := y2 - era * 400
  let mp : Nat := (m + 9) % 12
  let doy : Int := ((153 * mp + 2) / 5 + d - 1 : Nat)
  let doe : Int := yoe * 365 + yoe / 4 - yoe / 100 + doy
  era * 146097 + doe - 719468

/-- Exactly `n` decimal digits folded into a number. -/
def takeDigitsAux : Nat → Nat → List Char → Option (Nat × List Char)
  | 0, acc, cs => some (acc, cs)
  | n + 1, acc, c :: cs =>
    if c.isDigit then takeDigitsAux n (acc * 10 + (c.toNat - 48)) cs else none
  | _ + 1, _, [] => none

def expectChar (c : Char) : List Char → Option (List Char)
  | x :: rest => if x = c then some rest else none
  | [] => none

/-- Optional fractional seconds: nanoseconds (digits beyond nine are
truncated, shorter runs are scaled up). -/
def parseFrac : List Char → Option (Nat × List Char)
  | '.' :: rest =>
    match spanDigits rest with
    | ([], _) => none
    | (ds, r2) =>
      let first9 := ds.take 9
      some (digitsToNat first9 * 10 ^ (9 - first9.length), r2)
  | cs => some (0, cs)

/-- Offset in seconds: `Z`/`z` or `±HH:MM`. -/
def parseOffset : List Char → Option (Int × List Char)
  | 'Z' :: rest => some (0, rest)
  | 'z' :: rest => some (0, rest)
  | '+' :: rest =>
    match takeDigitsAux 2 0 rest with
    | some (h, cs) =>
      match expectChar ':' cs with
      | some cs2 =>
        match takeDigitsAux 2 0 cs2 with
        | some (m, cs3) => if h ≤ 23 ∧ m ≤ 59 then some ((h * 3600 + m * 60 : Nat), cs3) else none
        | none => none
      | none => none
    | none => none
  | '-' :: rest =>
    match takeDigitsAux 2 0 rest with
    | some (h, cs) =>
      match expectChar ':' cs with
      | some cs2 =>
        match takeDigitsAux 2 0 cs2 with
        | some (m, cs3) =>
          if h ≤ 23 ∧ m ≤ 59 then some (-((h * 3600 + m * 60 : Nat) : Int), cs3) else none
        | none => none
      | none => none
    | none => none
  | _ => none

/-- Calendar-field validation: month, day-of-month (leap aware), hour,
minute, second (60 admits a leap second, as chrono does). -/
def rfcFieldsValid (y mo d h mi se : Nat) : Bool :=
  decide (1 ≤ mo) && decide (mo ≤ 12) && decide (1 ≤ d) &&
    decide (d ≤ daysInMonth (y : Int) mo) && decide (h ≤ 23) && decide (mi ≤ 59) &&
    decide (se ≤ 60)

/-- Epoch seconds from validated fields (a leap second is clamped to 59). -/
def mkDateTime (y mo d h mi se nanos : Nat) (off : Int) : DateTime :=
  ⟨daysFromCivil (y : Int) mo d * 86400 +
    ((h * 3600 + mi * 60 + (if se = 60 then 59 else se) : Nat) : Int) - off, nanos⟩

/-- `YYYY-MM-DD`. -/
def parseYmd (cs0 : List Char) : Option (Nat × Nat × Nat × List Char) := do
  let (y, cs) ← takeDigitsAux 4 0 cs0
  let cs ← expectChar '-' cs
  let (mo, cs) ← takeDigitsAux 2 0 cs
  let cs ← expectChar '-' cs
  let (d, cs) ← takeDigitsAux 2 0 cs
  some (y, mo, d, cs)

/-- `HH:MM:SS`. -/
def parseHms (cs0 : List Char) : Option (Nat × Nat × Nat × List Char) := do
  let (h, cs) ← takeDigitsAux 2 0 cs0
  let cs ← expectChar ':' cs
  let (mi, cs) ← takeDigitsAux 2 0 cs
  let cs ← expectChar ':' cs
  let (se, cs) ← takeDigitsAux 2 0 cs
  some (h, mi, se, cs)

/-- `chrono::DateTime::parse_from_rfc3339`, normalised to UTC. -/
def parse_rfc3339 (s : String) : Option DateTime := do
  let (y, mo, d, cs) ← parseYmd s.data
  let cs ← (match cs with
    | 'T' :: r => some r
    | 't' :: r => some r
    | _ => none)
  let (h, mi, se, cs) ← parseHms cs
  let (nanos, cs) ← parseFrac cs
  let (off, cs) ← parseOffset cs
  if cs = [] ∧ rfcFieldsValid y mo d h mi se = true then
    some (mkDateTime y mo d h mi se nanos off)
  else none

def jsonUuidField (fields : List (String × Json)) (key : String) : Except String Nat := do
  let s ← jsonStrField fields key
  match uuid_parse s with
  | some v => .ok v
  | none => .error ("invalid uuid in field " ++ key)

def jsonDateTimeField (fields : List (String × Json)) (key : String) :
    Except String DateTime := do
  let s ← jsonStrField fields key
  match parse_rfc3339 s with
  | some v => .ok v
  | none => .error ("invalid timestamp in field " ++ key)

/-! ## Wire structs

`WalletSetRequest` is embedded from `src/src/circle/models/wallet_set.rs`
(lines 5–11).  The response-side structs used by `api.rs`
(`crate::models::wallet_set`, `crate::models::public_key`,
`crate::models::wallet_create`, `crate::models::wallet_balance`,
`crate::models::transaction`) are not present in the snapshot; they are
modelled from the spec where their shape matters and kept opaque where it
does not. -/

/-- `WalletSetRequest` (src/src/circle/models/wallet_set.rs, camelCase wire
names, `Serialize` and `Deserialize` derived). -/
structure WalletSetRequest where
  idempotency_key : String
  entity_secret_cipher_text : String
  name : String
deriving DecidableEq

/-- Derived `Serialize` with `rename_all = "camelCase"`, at the JSON-value
level. -/
def WalletSetRequest.toJson (r : WalletSetRequest) : Json :=
  .obj [("idempotencyKey", .str r.idempotency_key),
        ("entitySecretCipherText", .str r.entity_secret_cipher_text),
        ("name", .str r.name)]

/-- Derived `Deserialize` with `rename_all = "camelCase"`. -/
def WalletSetRequest.fromJson : Json → Except String WalletSetRequest
  | .obj fs => do
    let ik ← jsonStrField fs "idempotencyKey"
    let es ← jsonStrField fs "entitySecretCipherText"
    let nm ← jsonStrField fs "name"
    .ok ⟨ik, es, nm⟩
  | _ => .error "expected object"

/-- Keys of a JSON object, in order. -/
def Json.objKeys : Json → List String
  | .obj fs => fs.map Prod.fst
  | _ => []

/-- Modelled from the spec: the wallet-set payload of the response envelope,
`{ id: uuid, custodyType: string, name: string, createDate, updateDate }`
(§6); struct source `src/src/models/wallet_set.rs` is not in the snapshot. -/
structure WalletSet where
  id : Nat
  custody_type : String
  name : String
  update_date : DateTime
  create_date : DateTime
deriving DecidableEq

/-- Modelled from the spec: the response payload wrapper carrying the
`walletSet` member, as exercised by `test_parse_wallet_set_response`
(src/src/api.rs) and `examples/managed_wallet.rs` (`.wallet_set`). -/
structure WalletSetResponse where
  wallet_set : WalletSet
deriving DecidableEq

def WalletSet.fromJson : Json → Except String WalletSet
  | .obj fs => do
    let idv ← jsonUuidField fs "id"
    let ct ← jsonStrField fs "custodyType"
    let nm ← jsonStrField fs "name"
    let ud ← jsonDateTimeField fs "updateDate"
    let cd ← jsonDateTimeField fs "createDate"
    .ok ⟨idv, ct, nm, ud, cd⟩
  | _ => .error "expected object"

def WalletSetResponse.fromJson : Json → Except String WalletSetResponse
  | .obj fs => do
    let ws ← jsonField fs "walletSet"
    let w ← WalletSet.fromJson ws
    .ok ⟨w⟩
  | _ => .error "expected object"

/-- `ApiResponse<T>` (src/src/api.rs lines 16–20): the generic envelope with
the single `data` payload field. -/
structure ApiResponse (T : Type) where
  data : T
deriving DecidableEq

def ApiResponse.fromJson {T : Type} (inner : Json → Except String T) :
    Json → Except String (ApiResponse T)
  | .obj fs => do
    let d ← jsonField fs "data"
    let v ← inner d
    .ok ⟨v⟩
  | _ => .error "expected object"

/-- `serde_json::from_str::<ApiResponse<WalletSetResponse>>`, as in
`test_parse_wallet_set_response`. -/
def decode_wallet_set_body (s : String) : Except String (ApiResponse WalletSetResponse) :=
  match Json.parse s with
  | none => .error "invalid json"
  | some j => ApiResponse.fromJson WalletSetResponse.fromJson j

/-- Modelled from the spec: `{ data: { publicKey: <PEM string> } }` (§6);
struct source `src/src/models/public_key.rs` is not in the snapshot. -/
structure PublicKeyResponse where
  public_key : String
deriving DecidableEq

/-- Modelled from the spec: wallet-creation body
`{ idempotencyKey, entitySecretCipherText, walletSetId, blockchains, count }`
(§6); struct source `src/src/models/wallet_create.rs` is not in the
snapshot. -/
structure WalletCreateRequest where
  idempotency_key : String
  entity_secret_cipher_text : String
  wallet_set_id : String
  blockchains : List String
  count : Nat

def WalletCreateRequest.toJson (r : WalletCreateRequest) : Json :=
  .obj [("idempotencyKey", .str r.idempotency_key),
        ("entitySecretCipherText", .str r.entity_secret_cipher_text),
        ("walletSetId", .str r.wallet_set_id),
        ("blockchains", .arr (r.blockchains.map Json.str)),
        ("count", .num (Int.ofNat r.count))]

/-- Modelled from the spec: "response payload is a list of wallet records"
(§6); the record shape is not needed by any claim and stays opaque. -/
structure WalletCreateResponse where
  wallets : List Json

/-- Modelled from the spec: "response payload is a list of balance records"
(§6). -/
structure WalletBalanceResponse where
  token_balances : List Json

/-- Modelled from the spec: "POST with a transaction request body" (§6); the
body shape is unspecified, so the request carries its serialized JSON
value. -/
structure TransactionRequest where
  body : Json

/-- Modelled from the spec: "response payload is a transaction record"
(§6). -/
structure TransactionResponse where
  record : Json

/-- Modelled from the spec: balance query parameters ("include-all flag,
pagination cursors, time-range filters", §6); serialized as a query
string, so kept as key-value pairs.  Struct source
`src/src/models/wallet_balance.rs` is not in the snapshot. -/
structure WalletBalanceQueryParams where
  params : List (String × String)
deriving DecidableEq

/-! ## Error taxonomy

`CircleError` is embedded from `src/src/error.rs` (lines 8–18).  That file
revision lacks the `ResponseStatusCodeError` variant which `api.rs`
constructs; the variant is added as modelled from the spec ("non-2xx HTTP
status (kept as the raw status code)", §4.5).  The client functions return
`anyhow::Result`, so the operation error type is the sum of what `?` can
wrap there: a `CircleError`, a `reqwest::Error` (transport or body decode),
a `hex::FromHexError`, or an `rsa::errors::Error`. -/

/-- Opaque transport-level error (`reqwest` connection/TLS/timeout). -/
structure TransportError where
  msg : String
deriving DecidableEq

/-- Opaque serde decode failure inside `reqwest::Response::json`. -/
structure DecodeError where
  msg : String
deriving DecidableEq

/-- Opaque `rsa::errors::Error`. -/
structure RsaCrateError where
  msg : String
deriving DecidableEq

/-- Opaque `crate::api::ApiError` payload (source not in the snapshot). -/
structure ApiErrorBody where
  msg : String
deriving DecidableEq

/-- `CircleError` (src/src/error.rs lines 8–18), plus the
`ResponseStatusCodeError` variant used by `api.rs`. -/
inductive CircleError where
  | ApiError (request_id : String) (err : ApiErrorBody)
  | ValueError
  | MissingRequestId
  | RequestIdIsNotAValidString (msg : String)
  | RequestIdIsNotAValidUuid (msg : String)
  | UnknownRequestError (e : TransportError)
  | FromHexError (e : FromHexError)
  | RsaError (e : RsaCrateError)
  | ResponseStatusCodeError (status : Nat)
deriving DecidableEq

/-- `reqwest::Error`, split by origin. -/
inductive ReqwestError where
  | transport (e : TransportError)
  | decode (e : DecodeError)
deriving DecidableEq

/-- `anyhow::Error` as produced by the client functions. -/
inductive AnyhowError where
  | circle (e : CircleError)
  | reqwest (e : ReqwestError)
  | hex (e : FromHexError)
  | rsa (e : RsaCrateError)
deriving DecidableEq

/-- The five documented failure kinds (§4.5/§7): transport, HTTP status,
body decode, hex decode, cryptographic. -/
def isDocumentedErrorKind : AnyhowError → Bool
  | .reqwest (.transport _) => true
  | .reqwest (.decode _) => true
  | .circle (.ResponseStatusCodeError _) => true
  | .hex _ => true
  | .rsa _ => true
  | _ => false

/-! ## `encrypt_entity_secret` (src/src/api.rs lines 169–174) -/

/-- Failure of `encrypt_entity_secret`: the hex decode or the RSA
primitive. -/
inductive EncryptError where
  | hex (e : FromHexError)
  | rsa (e : RsaCrateError)
deriving DecidableEq

def EncryptError.toAnyhow : EncryptError → AnyhowError
  | .hex e => .hex e
  | .rsa e => .rsa e

/-- `encrypt_entity_secret(public_key, entity_secret)`: hex-decode the
secret, encrypt the bytes with RSA-OAEP/SHA-256 under a fresh rng, base64
the ciphertext.  The external randomized primitive
`public_key.encrypt(&mut rand::thread_rng(), Oaep::new::<Sha256>(), ..)` is
the `encrypt` argument with key and rng state baked in. -/
def encrypt_entity_secret (encrypt : List Nat → Except RsaCrateError (List Nat))
    (entity_secret : String) : Except EncryptError String :=
  match hex_decode entity_secret with
  | .error e => .error (.hex e)
  | .ok bytes =>
    match encrypt bytes with
    | .error e => .error (.rsa e)
    | .ok enc_data => .ok (base64_encode enc_data)

/-! ## HTTP model and the client (src/src/api.rs)

One operation of the client performs: optional encryption of the entity
secret, one HTTP exchange, and status-code branching.  The transport and
the serde decoding of each response body are oracles; every operation
also returns an event trace recording the encryption call, the HTTP
request actually sent, and the PEM decode, which makes "called exactly
once" and "the string passed to the decoder" statable. -/

inductive HttpMethod where
  | get
  | post
deriving DecidableEq

structure HttpRequest where
  method : HttpMethod
  url : String
  bearer : String
  content_type_json : Bool
  body : Option String
  query : List (String × String)
deriving DecidableEq

structure HttpResponse where
  status : Nat
  body : String
deriving DecidableEq

/-- `reqwest::StatusCode::is_success`: 2xx. -/
def isSuccessStatus (s : Nat) : Bool := 200 ≤ s && s < 300

/-- Opaque handle for a decoded `rsa::RsaPublicKey`. -/
abbrev RsaPublicKey := Nat

/-- The external collaborators of one client: the HTTP transport, the
RSA-OAEP primitive (per public key, rng state baked in), the PEM decoder
`RsaPublicKey::from_public_key_pem`, and the serde decoders for the
response bodies whose struct sources are not in the snapshot. -/
structure Oracles where
  transport : HttpRequest → Except TransportError HttpResponse
  encrypt : RsaPublicKey → List Nat → Except RsaCrateError (List Nat)
  pem_decode : String → Option RsaPublicKey
  decode_public_key : String → Except DecodeError PublicKeyResponse
  decode_wallet_set : String → Except DecodeError WalletSetResponse
  decode_wallet_create : String → Except DecodeError WalletCreateResponse
  decode_balance : String → Except DecodeError WalletBalanceResponse
  decode_transaction : String → Except DecodeError TransactionResponse

/-- Observable steps of one operation. -/
inductive Event where
  | encryptCall (entity_secret : String)
  | httpCall (req : HttpRequest)
  | pemDecodeCall (key : String)
deriving DecidableEq

/-- Number of `encrypt_entity_secret` invocations in a trace. -/
def countEncryptCalls (es : List Event) : Nat :=
  (es.filter fun e =>
    match e with
    | .encryptCall _ => true
    | _ => false).length

/-- `CircleClient` (src/src/api.rs lines 22–28); the `reqwest::Client`
handle carries no state relevant here and is omitted. -/
structure CircleClient where
  base_url : String
  api_key : String
  circle_entity_secret : String
  public_key : RsaPublicKey
deriving DecidableEq

/-- Outcome of `CircleClient::new`, which can also panic (the `unwrap` on
the PEM decode). -/
inductive NewOutcome where
  | ok (client : CircleClient)
  | err (e : AnyhowError)
  | panic
deriving DecidableEq

/-- The send/status/decode tail shared verbatim by every operation in
`api.rs`: transport errors propagate, a 2xx response body is decoded, a
non-2xx status becomes `CircleError::ResponseStatusCodeError`. -/
def http_round {T : Type} (orc : Oracles) (req : HttpRequest)
    (decode : String → Except DecodeError T) : Except AnyhowError T :=
  match orc.transport req with
  | .error e => .error (.reqwest (.transport e))
  | .ok res =>
    if isSuccessStatus res.status then
      match decode res.body with
      | .error e => .error (.reqwest (.decode e))
      | .ok v => .ok v
    else .error (.circle (.ResponseStatusCodeError res.status))

/-- The GET issued by `CircleClient::new` (it sets a JSON content type
header; the POSTs use `RequestBuilder::json` instead). -/
def newKeyRequest (api_key : String) : HttpRequest :=
  { method := .get,
    url := "https://api.circle.com/v1/" ++ "w3s/config/entity/publicKey",
    bearer := api_key,
    content_type_json := true,
    body := none,
    query := [] }

/-- `CircleClient::new` (src/src/api.rs lines 31–60): one bearer-authorized
GET to the key-discovery endpoint; non-2xx becomes a status-code error; on
success the key string has every `"RSA "` occurrence removed and is PEM
decoded, `unwrap`ing (panicking) on decode failure. -/
def CircleClient.new (orc : Oracles) (api_key : String) (circle_entity_secret : String) :
    NewOutcome × List Event :=
  let req := newKeyRequest api_key
  match orc.transport req with
  | .error e => (.err (.reqwest (.transport e)), [.httpCall req])
  | .ok res =>
    if isSuccessStatus res.status then
      match orc.decode_public_key res.body with
      | .error e => (.err (.reqwest (.decode e)), [.httpCall req])
      | .ok public_key_response =>
        let public_key_str := strip_rsa_label public_key_response.public_key
        match orc.pem_decode public_key_str with
        | none => (.panic, [.httpCall req, .pemDecodeCall public_key_str])
        | some public_key =>
          (.ok ⟨"https://api.circle.com/v1/", api_key, circle_entity_secret, public_key⟩,
            [.httpCall req, .pemDecodeCall public_key_str])
    else (.err (.circle (.ResponseStatusCodeError res.status)), [.httpCall req])

/-- `CircleClient::create_wallet_set` (src/src/api.rs lines 61–88). -/
def CircleClient.create_wallet_set (self : CircleClient) (orc : Oracles)
    (idempotency_key : String) (name : String) :
    Except AnyhowError WalletSetResponse × List Event :=
  match encrypt_entity_secret (orc.encrypt self.public_key) self.circle_entity_secret with
  | .error e => (.error e.toAnyhow, [.encryptCall self.circle_entity_secret])
  | .ok cipher =>
    let request : WalletSetRequest := ⟨idempotency_key, cipher, name⟩
    let req : HttpRequest :=
      { method := .post,
        url := self.base_url ++ "w3s/developer/walletSets",
        bearer := self.api_key,
        content_type_json := false,
        body := some (Json.print request.toJson),
        query := [] }
    (http_round orc req orc.decode_wallet_set,
      [.encryptCall self.circle_entity_secret, .httpCall req])

/-- `CircleClient::create_wallet` (src/src/api.rs lines 90–122). -/
def CircleClient.create_wallet (self : CircleClient) (orc : Oracles)
    (idempotency_key : String) (wallet_set_id : String) (blockchains : List String)
    (count : Nat) : Except AnyhowError WalletCreateResponse × List Event :=
  match encrypt_entity_secret (orc.encrypt self.public_key) self.circle_entity_secret with
  | .error e => (.error e.toAnyhow, [.encryptCall self.circle_entity_secret])
  | .ok cipher =>
    let request : WalletCreateRequest := ⟨idempotency_key, cipher, wallet_set_id, blockchains, count⟩
    let req : HttpRequest :=
      { method := .post,
        url := self.base_url ++ "w3s/developer/wallets",
        bearer := self.api_key,
        content_type_json := false,
        body := some (Json.print request.toJson),
        query := [] }
    (http_round orc req orc.decode_wallet_create,
      [.encryptCall self.circle_entity_secret, .httpCall req])

/-- `CircleClient::get_wallet_balance` (src/src/api.rs lines 124–145): a
GET with query parameters and no encryption. -/
def CircleClient.get_wallet_balance (self : CircleClient) (orc : Oracles)
    (wallet_id : String) (query_params : WalletBalanceQueryParams) :
    Except AnyhowError WalletBalanceResponse × List Event :=
  let req : HttpRequest :=
    { method := .get,
      url := self.base_url ++ "w3s/wallets/" ++ wallet_id ++ "/balances",
      bearer := self.api_key,
      content_type_json := false,
      body := none,
      query := query_params.params }
  (http_round orc req orc.decode_balance, [.httpCall req])

/-- `CircleClient::initiate_transaction` (src/src/api.rs lines 147–166): it
POSTs the caller-built request and performs no encryption of its own. -/
def CircleClient.initiate_transaction (self : CircleClient) (orc : Oracles)
    (request : TransactionRequest) :
    Except AnyhowError TransactionResponse × List Event :=
  let req : HttpRequest :=
    { method := .post,
      url := self.base_url ++ "w3s/developer/transactions/transfer",
      bearer := self.api_key,
      content_type_json := false,
      body := some (Json.print request.body),
      query := [] }
  (http_round orc req orc.decode_transaction, [.httpCall req])

/-! ## Claim C2 -/

/-- C2: for every input string that is not valid hex, `encrypt_entity_secret`
fails with a hex-decode error, and the result is identical for every RSA
primitive — the cryptographic operation is never consulted. -/
theorem invalid_hex_fails_before_encryption (s : String)
    (h : isValidHexString s = false) :
    ∃ e, ∀ encrypt, encrypt_entity_secret encrypt s = .error (.hex e) := by
  obtain ⟨e, he⟩ := hex_decode_error_of_invalid s h
  refine ⟨e, fun encrypt => ?_⟩
  unfold encrypt_entity_secret
  rw [he]

/-- C2 witness at the non-hex input `"zz"`. -/
theorem invalid_hex_fails_before_encryption_witness :
    ∃ e, ∀ encrypt, encrypt_entity_secret encrypt "zz" = .error (.hex e) :=
  invalid_hex_fails_before_encryption "zz" (by decide)

/-! ## Claim C3 -/

/-- C3: on a valid hex secret, with the RSA-OAEP primitive meeting its
contract (success, byte-valued ciphertext that is non-empty, differs from
the plaintext bytes, and differs across independent entropy),
`encrypt_entity_secret` succeeds with a non-empty base64 string that
decodes back to the ciphertext — not to the plaintext bytes — and two
calls under independent entropy return different strings. -/
theorem encrypt_entity_secret_fresh (enc1 enc2 : List Nat → Except RsaCrateError (List Nat))
    (s : String) (bytes c1 c2 : List Nat)
    (hhex : hex_decode s = .ok bytes)
    (h1 : enc1 bytes = .ok c1) (h2 : enc2 bytes = .ok c2)
    (hne : c1 ≠ []) (hb1 : ∀ b ∈ c1, b < 256) (hb2 : ∀ b ∈ c2, b < 256)
    (hplain : c1 ≠ bytes) (hfresh : c1 ≠ c2) :
    encrypt_entity_secret enc1 s = .ok (base64_encode c1) ∧
    base64_encode c1 ≠ "" ∧
    base64_decode (base64_encode c1) = some c1 ∧
    base64_decode (base64_encode c1) ≠ some bytes ∧
    encrypt_entity_secret enc1 s ≠ encrypt_entity_secret enc2 s := by
  have e1 : encrypt_entity_secret enc1 s = .ok (base64_encode c1) := by
    simp only [encrypt_entity_secret, hhex, h1]
  have e2 : encrypt_entity_secret enc2 s = .ok (base64_encode c2) := by
    simp only [encrypt_entity_secret, hhex, h2]
  refine ⟨e1, base64_encode_ne_empty c1 hne, base64_decode_encode c1 hb1, ?_, ?_⟩
  · rw [base64_decode_encode c1 hb1]
    intro hcon
    exact hplain (Option.some.inj hcon)
  · rw [e1, e2]
    intro hcon
    have henc : base64_encode c1 = base64_encode c2 := by injection hcon
    exact hfresh (base64_encode_inj c1 c2 hb1 hb2 henc)

/-- C3 witness: secret `"aa"`, two primitive runs returning `[0]` and
`[1]`. -/
theorem encrypt_entity_secret_fresh_witness :
    encrypt_entity_secret (fun _ => .ok [0]) "aa" = .ok (base64_encode [0]) ∧
    encrypt_entity_secret (fun _ => .ok [0]) "aa"
      ≠ encrypt_entity_secret (fun _ => .ok [1]) "aa" := by
  have h := encrypt_entity_secret_fresh (fun _ => .ok [0]) (fun _ => .ok [1]) "aa"
    [170] [0] [1] rfl rfl rfl (by decide) (by decide) (by decide)
    (by decide) (by decide)
  exact ⟨h.1, h.2.2.2.2⟩

/-! ## Claim C10 -/

/-- C10: `encrypt_entity_secret` fails with a hex-decode error exactly when
the input is not valid hex (a non-hex byte or odd length); the empty string
passes with zero decoded bytes — no length or content validation — and the
encryption of the empty plaintext returns the base64 ciphertext. -/
theorem hex_error_iff_invalid_hex (encrypt : List Nat → Except RsaCrateError (List Nat))
    (s : String) (c : List Nat) (hempty : encrypt [] = .ok c) :
    ((∃ e, encrypt_entity_secret encrypt s = .error (.hex e)) ↔
      isValidHexString s = false) ∧
    hex_decode "" = .ok [] ∧
    encrypt_entity_secret encrypt "" = .ok (base64_encode c) := by
  refine ⟨⟨?_, ?_⟩, rfl, ?_⟩
  · rintro ⟨e, he⟩
    cases hv : isValidHexString s with
    | false => rfl
    | true =>
      obtain ⟨v, hok⟩ := (hex_decode_ok_iff s).2 hv
      simp only [encrypt_entity_secret, hok] at he
      cases henc : encrypt v with
      | error e2 => rw [henc] at he; simp at he
      | ok d => rw [henc] at he; simp at he
  · intro hinv
    obtain ⟨e, he⟩ := hex_decode_error_of_invalid s hinv
    refine ⟨e, ?_⟩
    unfold encrypt_entity_secret
    rw [he]
  · simp only [encrypt_entity_secret,
      show hex_decode "" = Except.ok ([] : List Nat) from rfl, hempty]

/-- C10 witness: non-hex input `"zz"` and the empty input, primitive
returning `[5]`. -/
theorem hex_error_iff_invalid_hex_witness :
    (∃ e, encrypt_entity_secret (fun _ => .ok [5]) "zz" = .error (.hex e)) ∧
    encrypt_entity_secret (fun _ => .ok [5]) "" = .ok (base64_encode [5]) := by
  have h := hex_error_iff_invalid_hex (fun _ => .ok [5]) "zz" [5] rfl
  exact ⟨h.1.2 (by decide), h.2.2⟩

/-! ## Claim C7 -/

/-- The response body of `test_parse_wallet_set_response`
(src/src/api.rs lines 208–214). -/
def walletSetFixture : String :=
  "\x7b\"data\":\x7b\"walletSet\":\x7b\"id\":\"0068d5a4-eb64-4399-8441-a9af33af80a0\",\"custodyType\":\"DEVELOPER\",\"name\":\"test_wallet_set\",\"updateDate\":\"2023-11-25T14:26:38Z\",\"createDate\":\"2023-11-25T14:26:38Z\"\x7d\x7d\x7d"

set_option maxRecDepth 100000 in
/-- C7: parsing the known wallet-set-creation response body into the
response envelope succeeds; the record's name is `"test_wallet_set"` and
its id is the successfully parsed UUID
`0068d5a4-eb64-4399-8441-a9af33af80a0`. -/
theorem wallet_set_fixture_parse_ok :
    (decode_wallet_set_body walletSetFixture).toOption.map
        (fun r => r.data.wallet_set.name) = some "test_wallet_set" ∧
    (decode_wallet_set_body walletSetFixture).toOption.map
        (fun r => some r.data.wallet_set.id) =
      some (uuid_parse "0068d5a4-eb64-4399-8441-a9af33af80a0") ∧
    (uuid_parse "0068d5a4-eb64-4399-8441-a9af33af80a0").isSome = true := by
  decide

/-! ## Claim C8 -/

/-- C8: serializing a wallet-set request envelope yields a JSON object with
exactly the camel-case wire names `idempotencyKey`, `entitySecretCipherText`
and `name`, and deserializing the serialized form restores every field
unchanged (round-trip identity). -/
theorem wallet_set_request_round_trip (r : WalletSetRequest) :
    r.toJson.objKeys = ["idempotencyKey", "entitySecretCipherText", "name"] ∧
    WalletSetRequest.fromJson r.toJson = .ok r :=
  ⟨rfl, rfl⟩

/-! ## Concrete fixtures shared by witnesses and counterexamples -/

/-- Baseline oracles: transport answers 200, the RSA primitive returns
`[0, 1]`, the PEM decode succeeds, payload decoders fail (their outcome is
irrelevant to most statements). -/
def fixtureOracles : Oracles :=
  { transport := fun _ => .ok ⟨200, ""⟩,
    encrypt := fun _ _ => .ok [0, 1],
    pem_decode := fun _ => some 0,
    decode_public_key := fun _ => .ok ⟨"PK"⟩,
    decode_wallet_set := fun _ => .error ⟨"decode"⟩,
    decode_wallet_create := fun _ => .error ⟨"decode"⟩,
    decode_balance := fun _ => .error ⟨"decode"⟩,
    decode_transaction := fun _ => .error ⟨"decode"⟩ }

def fixtureOracles404 : Oracles :=
  { fixtureOracles with transport := fun _ => .ok ⟨404, "bad"⟩ }

def fixtureOraclesDown : Oracles :=
  { fixtureOracles with transport := fun _ => .error ⟨"conn"⟩ }

def fixtureOraclesRsaFail : Oracles :=
  { fixtureOracles with encrypt := fun _ _ => .error ⟨"rsa"⟩ }

/-- A key-discovery payload in the vendor's PKCS#1-labelled PEM framing. -/
def pemFixture : String := "-----BEGIN RSA PUBLIC KEY-----\n-----END RSA PUBLIC KEY-----"

def fixtureOraclesPem : Oracles :=
  { fixtureOracles with
    decode_public_key := fun _ => .ok ⟨pemFixture⟩,
    pem_decode := fun _ => none }

/-- A client whose entity secret `"aa"` is valid hex. -/
def fixtureClient : CircleClient := ⟨"https://api.circle.com/v1/", "key", "aa", 0⟩

/-- A client whose entity secret `"zz"` is not hex. -/
def fixtureClientBadHex : CircleClient := ⟨"https://api.circle.com/v1/", "key", "zz", 0⟩

/-! ## Claim C1 -/

/-- C1 counterexample: a call of `initiate_transaction` performs zero
invocations of `encrypt_entity_secret`, not exactly one. -/
theorem initiate_transaction_no_encrypt_cex :
    ¬ countEncryptCalls
        (fixtureClient.initiate_transaction fixtureOracles ⟨Json.null⟩).2 = 1 := by
  decide

/-- C1 (amended): `create_wallet_set` and `create_wallet` each invoke
`encrypt_entity_secret` exactly once per call and place the resulting
ciphertext in the `entitySecretCipherText` field of the envelope they POST;
`initiate_transaction` performs no encryption of its own and POSTs the
caller-built request body unchanged. -/
theorem mutating_calls_encrypt_exactly_once (self : CircleClient) (orc : Oracles)
    (idk name wsid : String) (bcs : List String) (cnt : Nat) (treq : TransactionRequest)
    (cipher : String)
    (henc : encrypt_entity_secret (orc.encrypt self.public_key) self.circle_entity_secret
      = .ok cipher) :
    (∃ req : HttpRequest,
      (self.create_wallet_set orc idk name).2
        = [.encryptCall self.circle_entity_secret, .httpCall req] ∧
      req.body = some (Json.print (WalletSetRequest.mk idk cipher name).toJson)) ∧
    (∃ req : HttpRequest,
      (self.create_wallet orc idk wsid bcs cnt).2
        = [.encryptCall self.circle_entity_secret, .httpCall req] ∧
      req.body = some (Json.print (WalletCreateRequest.mk idk cipher wsid bcs cnt).toJson)) ∧
    countEncryptCalls (self.create_wallet_set orc idk name).2 = 1 ∧
    countEncryptCalls (self.create_wallet orc idk wsid bcs cnt).2 = 1 ∧
    (∃ req : HttpRequest,
      (self.initiate_transaction orc treq).2 = [.httpCall req] ∧
      req.body = some (Json.print treq.body)) ∧
    countEncryptCalls (self.initiate_transaction orc treq).2 = 0 := by
  have h1 : (self.create_wallet_set orc idk name).2
      = [.encryptCall self.circle_entity_secret,
         .httpCall
           { method := .post,
             url := self.base_url ++ "w3s/developer/walletSets",
             bearer := self.api_key,
             content_type_json := false,
             body := some (Json.print (WalletSetRequest.mk idk cipher name).toJson),
             query := [] }] := by
    simp only [CircleClient.create_wallet_set, henc]
  have h2 : (self.create_wallet orc idk wsid bcs cnt).2
      = [.encryptCall self.circle_entity_secret,
         .httpCall
           { method := .post,
             url := self.base_url ++ "w3s/developer/wallets",
             bearer := self.api_key,
             content_type_json := false,
             body := some (Json.print (WalletCreateRequest.mk idk cipher wsid bcs cnt).toJson),
             query := [] }] := by
    simp only [CircleClient.create_wallet, henc]
  have h3 : (self.initiate_transaction orc treq).2
      = [.httpCall
           { method := .post,
             url := self.base_url ++ "w3s/developer/transactions/transfer",
             bearer := self.api_key,
             content_type_json := false,
             body := some (Json.print treq.body),
             query := [] }] := rfl
  refine ⟨⟨_, h1, rfl⟩, ⟨_, h2, rfl⟩, ?_, ?_, ⟨_, h3, rfl⟩, ?_⟩
  · rw [h1]
    rfl
  · rw [h2]
    rfl
  · rw [h3]
    rfl

/-- C1 witness: the two wallet operations encrypt exactly once, the
transaction operation does not encrypt. -/
theorem mutating_calls_encrypt_exactly_once_witness :
    countEncryptCalls (fixtureClient.create_wallet_set fixtureOracles "i" "n").2 = 1 ∧
    countEncryptCalls (fixtureClient.create_wallet fixtureOracles "i" "w" [] 1).2 = 1 ∧
    countEncryptCalls (fixtureClient.initiate_transaction fixtureOracles ⟨Json.null⟩).2 = 0 := by
  have h := mutating_calls_encrypt_exactly_once fixtureClient fixtureOracles "i" "n" "w"
    [] 1 ⟨Json.null⟩ (base64_encode [0, 1]) rfl
  exact ⟨h.2.2.1, h.2.2.2.1, h.2.2.2.2.2⟩

/-! ## Claim C4 -/

/-- C4: whenever the transport answers with a non-2xx status, every
operation — including construction's key-discovery call — fails with the
status-code error carrying that numeric status, whatever the response body
is (the body is never consulted), and never with a deserialization
error. -/
theorem non_success_status_maps_to_status_error (self : CircleClient) (orc : Oracles)
    (status : Nat) (body : HttpRequest → String)
    (idk name wsid wid ak es : String) (bcs : List String) (cnt : Nat)
    (treq : TransactionRequest) (qp : WalletBalanceQueryParams) (cipher : String)
    (htr : ∀ req, orc.transport req = .ok ⟨status, body req⟩)
    (hst : ¬ (200 ≤ status ∧ status < 300))
    (henc : encrypt_entity_secret (orc.encrypt self.public_key) self.circle_entity_secret
      = .ok cipher) :
    (self.create_wallet_set orc idk name).1
      = .error (.circle (.ResponseStatusCodeError status)) ∧
    (self.create_wallet orc idk wsid bcs cnt).1
      = .error (.circle (.ResponseStatusCodeError status)) ∧
    (self.get_wallet_balance orc wid qp).1
      = .error (.circle (.ResponseStatusCodeError status)) ∧
    (self.initiate_transaction orc treq).1
      = .error (.circle (.ResponseStatusCodeError status)) ∧
    (CircleClient.new orc ak es).1 = .err (.circle (.ResponseStatusCodeError status)) := by
  have hsf : isSuccessStatus status = false := by
    simp only [isSuccessStatus, Bool.and_eq_false_iff, decide_eq_false_iff_not]
    omega
  have hround : ∀ (T : Type) (req : HttpRequest) (dec : String → Except DecodeError T),
      http_round orc req dec = .error (.circle (.ResponseStatusCodeError status)) := by
    intro T req dec
    unfold http_round
    rw [htr req]
    simp [hsf]
  refine ⟨?_, ?_, ?_, ?_, ?_⟩
  · simp only [CircleClient.create_wallet_set, henc]
    exact hround _ _ _
  · simp only [CircleClient.create_wallet, henc]
    exact hround _ _ _
  · exact hround _ _ _
  · exact hround _ _ _
  · simp [CircleClient.new, htr (newKeyRequest ak), hsf]

/-- C4 witness at status 404. -/
theorem non_success_status_maps_to_status_error_witness :
    (fixtureClient.create_wallet_set fixtureOracles404 "i" "n").1
      = .error (.circle (.ResponseStatusCodeError 404)) ∧
    (CircleClient.new fixtureOracles404 "key" "aa").1
      = .err (.circle (.ResponseStatusCodeError 404)) := by
  have h := non_success_status_maps_to_status_error fixtureClient fixtureOracles404 404
    (fun _ => "bad") "i" "n" "w" "wid" "key" "aa" [] 1 ⟨Json.null⟩ ⟨[]⟩
    (base64_encode [0, 1]) (fun _ => rfl) (by omega) rfl
  exact ⟨h.1, h.2.2.2.2⟩

/-! ## Claim C6 -/

/-- C6: a 2xx key-discovery response whose key material fails to decode
into a public-key object makes `CircleClient::new` panic (its `unwrap`)
rather than return a typed error value. -/
theorem new_panics_on_undecodable_key (orc : Oracles) (ak es : String)
    (status : Nat) (body : String) (pk : PublicKeyResponse)
    (htr : orc.transport (newKeyRequest ak) = .ok ⟨status, body⟩)
    (hst : 200 ≤ status ∧ status < 300)
    (hdec : orc.decode_public_key body = .ok pk)
    (hpem : orc.pem_decode (strip_rsa_label pk.public_key) = none) :
    (CircleClient.new orc ak es).1 = .panic := by
  have hs : isSuccessStatus status = true := by
    simp only [isSuccessStatus, Bool.and_eq_true, decide_eq_true_eq]
    omega
  simp [CircleClient.new, htr, hdec, hpem, hs]

/-- C6 witness: a 200 response whose PEM decode fails. -/
theorem new_panics_on_undecodable_key_witness :
    (CircleClient.new fixtureOraclesPem "key" "aa").1 = .panic :=
  new_panics_on_undecodable_key fixtureOraclesPem "key" "aa" 200 "" ⟨pemFixture⟩
    rfl (by omega) rfl rfl

/-! ## Claim C9 -/

/-- C9 counterexample: on the standard vendor PEM framing the claimed
strip-one-leading-prefix transformation changes nothing (the string does
not start with `"RSA "`), while the client's actual transformation removes
the token from both the header and the footer before decoding. -/
theorem strip_rsa_not_leading_cex :
    (CircleClient.new fixtureOraclesPem "key" "aa").2
      = [.httpCall (newKeyRequest "key"),
         .pemDecodeCall "-----BEGIN PUBLIC KEY-----\n-----END PUBLIC KEY-----"] ∧
    spec_strip_leading_token pemFixture = pemFixture ∧
    "-----BEGIN PUBLIC KEY-----\n-----END PUBLIC KEY-----"
      ≠ spec_strip_leading_token pemFixture := by
  refine ⟨by decide, by decide, by decide⟩

/-- C9 (amended): after a successful key-discovery response, the string the
client passes to the PEM decoder is the returned key with every
non-overlapping occurrence of `"RSA "` removed, left to right (Rust
`str::replace` semantics), not only a leading prefix occurrence. -/
theorem new_removes_every_rsa_token (orc : Oracles) (ak es : String)
    (status : Nat) (body : String) (pk : PublicKeyResponse)
    (htr : orc.transport (newKeyRequest ak) = .ok ⟨status, body⟩)
    (hst : 200 ≤ status ∧ status < 300)
    (hdec : orc.decode_public_key body = .ok pk) :
    (CircleClient.new orc ak es).2
      = [.httpCall (newKeyRequest ak),
         .pemDecodeCall (rust_replace pk.public_key "RSA ")] := by
  have hs : isSuccessStatus status = true := by
    simp only [isSuccessStatus, Bool.and_eq_true, decide_eq_true_eq]
    omega
  simp [CircleClient.new, htr, hdec, hs, strip_rsa_label]
  cases orc.pem_decode (rust_replace pk.public_key "RSA ") <;> rfl

/-- C9 amended witness on the vendor PEM framing. -/
theorem new_removes_every_rsa_token_witness :
    (CircleClient.new fixtureOraclesPem "key" "aa").2
      = [.httpCall (newKeyRequest "key"),
         .pemDecodeCall (rust_replace pemFixture "RSA ")] :=
  new_removes_every_rsa_token fixtureOraclesPem "key" "aa" 200 "" ⟨pemFixture⟩
    rfl (by omega) rfl

/-! ## Claim C5 -/

theorem toAnyhow_documented (ee : EncryptError) :
    isDocumentedErrorKind ee.toAnyhow = true := by
  cases ee <;> rfl

/-- Any error out of the shared send/status/decode tail is a transport,
status-code or decode error. -/
theorem http_round_error_kind {T : Type} (orc : Oracles) (req : HttpRequest)
    (dec : String → Except DecodeError T) (e : AnyhowError)
    (h : http_round orc req dec = .error e) : isDocumentedErrorKind e = true := by
  unfold http_round at h
  split at h
  · injection h with h2
    subst h2
    rfl
  · split at h
    · split at h
      · injection h with h2
        subst h2
        rfl
      · cases h
    · injection h with h2
      subst h2
      rfl

theorem create_wallet_set_error_kind (self : CircleClient) (orc : Oracles)
    (idk name : String) (e : AnyhowError)
    (h : (self.create_wallet_set orc idk name).1 = .error e) :
    isDocumentedErrorKind e = true := by
  unfold CircleClient.create_wallet_set at h
  cases henc : encrypt_entity_secret (orc.encrypt self.public_key) self.circle_entity_secret with
  | error ee =>
    rw [henc] at h
    simp only at h
    injection h with h2
    subst h2
    exact toAnyhow_documented ee
  | ok cipher =>
    rw [henc] at h
    simp only at h
    exact http_round_error_kind orc _ _ e h

theorem create_wallet_error_kind (self : CircleClient) (orc : Oracles)
    (idk wsid : String) (bcs : List String) (cnt : Nat) (e : AnyhowError)
    (h : (self.create_wallet orc idk wsid bcs cnt).1 = .error e) :
    isDocumentedErrorKind e = true := by
  unfold CircleClient.create_wallet at h
  cases henc : encrypt_entity_secret (orc.encrypt self.public_key) self.circle_entity_secret with
  | error ee =>
    rw [henc] at h
    simp only at h
    injection h with h2
    subst h2
    exact toAnyhow_documented ee
  | ok cipher =>
    rw [henc] at h
    simp only at h
    exact http_round_error_kind orc _ _ e h

theorem new_error_kind (orc : Oracles) (ak es : String) (e : AnyhowError)
    (h : (CircleClient.new orc ak es).1 = .err e) : isDocumentedErrorKind e = true := by
  unfold CircleClient.new at h
  simp only at h
  split at h
  · injection h with h2
    subst h2
    rfl
  · split at h
    · split at h
      · injection h with h2
        subst h2
        rfl
      · split at h
        · cases h
        · cases h
    · injection h with h2
      subst h2
      rfl

/-- C5: every failure any client operation can return is one of exactly
five kinds — transport failure, non-2xx status with the raw code, response
body decode failure, hex-decode failure, RSA failure — none of the other
`CircleError` variants is reachable, and each of the five kinds is
reached by a concrete run. -/
theorem client_errors_within_documented_kinds :
    (∀ (self : CircleClient) (orc : Oracles) (idk name : String) (e : AnyhowError),
      (self.create_wallet_set orc idk name).1 = .error e →
        isDocumentedErrorKind e = true) ∧
    (∀ (self : CircleClient) (orc : Oracles) (idk wsid : String) (bcs : List String)
        (cnt : Nat) (e : AnyhowError),
      (self.create_wallet orc idk wsid bcs cnt).1 = .error e →
        isDocumentedErrorKind e = true) ∧
    (∀ (self : CircleClient) (orc : Oracles) (wid : String)
        (qp : WalletBalanceQueryParams) (e : AnyhowError),
      (self.get_wallet_balance orc wid qp).1 = .error e →
        isDocumentedErrorKind e = true) ∧
    (∀ (self : CircleClient) (orc : Oracles) (treq : TransactionRequest) (e : AnyhowError),
      (self.initiate_transaction orc treq).1 = .error e →
        isDocumentedErrorKind e = true) ∧
    (∀ (orc : Oracles) (ak es : String) (e : AnyhowError),
      (CircleClient.new orc ak es).1 = .err e → isDocumentedErrorKind e = true) ∧
    (fixtureClientBadHex.create_wallet_set fixtureOracles "i" "n").1
      = .error (.hex (.InvalidHexCharacter 122 0)) ∧
    (fixtureClient.create_wallet_set fixtureOraclesRsaFail "i" "n").1
      = .error (.rsa ⟨"rsa"⟩) ∧
    (fixtureClient.create_wallet_set fixtureOraclesDown "i" "n").1
      = .error (.reqwest (.transport ⟨"conn"⟩)) ∧
    (fixtureClient.create_wallet_set fixtureOracles404 "i" "n").1
      = .error (.circle (.ResponseStatusCodeError 404)) ∧
    (fixtureClient.create_wallet_set fixtureOracles "i" "n").1
      = .error (.reqwest (.decode ⟨"decode"⟩)) := by
  refine ⟨create_wallet_set_error_kind, create_wallet_error_kind, ?_, ?_, new_error_kind,
    rfl, rfl, rfl, rfl, rfl⟩
  · intro self orc wid qp e h
    exact http_round_error_kind orc _ _ e h
  · intro self orc treq e h
    exact http_round_error_kind orc _ _ e h

/-- C5 witness: the membership statements applied at a concrete erroring
run (the hex-decode failure). -/
theorem client_errors_within_documented_kinds_witness :
    isDocumentedErrorKind (.hex (.InvalidHexCharacter 122 0)) = true :=
  client_errors_within_documented_kinds.1 fixtureClientBadHex fixtureOracles "i" "n"
    (.hex (.InvalidHexCharacter 122 0)) rfl
